import Mathlib

/-!
Verification development for the media-analysis app (src/app.py).

The app's core functions are embedded shallowly:
  - base64 encoding (the behaviour of Python's base64.b64encode /
    base64.b64decode on byte strings, RFC 4648 standard alphabet);
  - encode_image (app.py lines 32-43);
  - process_video_frame (app.py lines 45-78), parameterised over the
    cv2 decoder behaviour;
  - load_api_key (app.py lines 23-30);
  - analyze_with_groq (app.py lines 80-112), parameterised over the
    remote endpoint;
  - the size gate and dispatch of main (app.py lines 140-167).

Bytes are Nat values below 256.
-/

/-- The RFC 4648 standard base64 alphabet, index 0 to 63. -/
def b64alphabet : List Char :=
  ['A', 'B', 'C', 'D', 'E', 'F', 'G', 'H', 'I', 'J', 'K', 'L', 'M',
   'N', 'O', 'P', 'Q', 'R', 'S', 'T', 'U', 'V', 'W', 'X', 'Y', 'Z',
   'a', 'b', 'c', 'd', 'e', 'f', 'g', 'h', 'i', 'j', 'k', 'l', 'm',
   'n', 'o', 'p', 'q', 'r', 's', 't', 'u', 'v', 'w', 'x', 'y', 'z',
   '0', '1', '2', '3', '4', '5', '6', '7', '8', '9', '+', '/']

/-- The alphabet character for a sextet value. -/
def charOf (n : ℕ) : Char := b64alphabet.getD n '='

/-- Scan for a character in a list, returning its index offset by the accumulator. -/
def sextetOfAux (ch : Char) : List Char → ℕ → Option ℕ
  | [], _ => none
  | c :: cs, i => if c = ch then some i else sextetOfAux ch cs (i + 1)

/-- The sextet value of an alphabet character, none for characters outside the alphabet. -/
def sextetOf (ch : Char) : Option ℕ := sextetOfAux ch b64alphabet 0

/-- Base64 encoding of a byte list (bytes are Nat below 256), as produced by
Python's base64.b64encode: groups of three bytes become four alphabet
characters, a trailing group of one or two bytes is padded with one or
two occurrences of the padding character. -/
def b64encode : List ℕ → List Char
  | [] => []
  | [a] => [charOf (a / 4), charOf (a % 4 * 16), '=', '=']
  | [a, b] => [charOf (a / 4), charOf (a % 4 * 16 + b / 16), charOf (b % 16 * 4), '=']
  | a :: b :: c :: rest =>
      charOf (a / 4) :: charOf (a % 4 * 16 + b / 16) ::
      charOf (b % 16 * 4 + c / 64) :: charOf (c % 64) :: b64encode rest

/-- Base64 decoding of a character list back to bytes; none on malformed input. -/
def b64decode : List Char → Option (List ℕ)
  | [] => some []
  | w :: x :: y :: z :: rest =>
      (sextetOf w).bind fun a =>
      (sextetOf x).bind fun b =>
      if y = '=' ∧ z = '=' ∧ rest = [] then
        some [a * 4 + b / 16]
      else if z = '=' ∧ rest = [] then
        (sextetOf y).map fun c => [a * 4 + b / 16, b % 16 * 16 + c / 4]
      else
        (sextetOf y).bind fun c =>
        (sextetOf z).bind fun d =>
        (b64decode rest).map fun tail =>
          (a * 4 + b / 16) :: (b % 16 * 16 + c / 4) :: (c % 4 * 64 + d) :: tail
  | _ => none

/-- An uploaded image file as seen by encode_image: its full content from
the start of the stream (the code calls file.seek(0) then file.read()),
and whether reading the stream raises. -/
structure UploadedImage where
  content : List ℕ
  readRaises : Bool

/-- encode_image (app.py lines 32-43): seek to the start, read the whole
content, base64-encode it; any exception is caught and None is returned. -/
def encode_image (f : UploadedImage) : Option (List Char) :=
  if f.readRaises then none
  else some (b64encode f.content)

/-- A decoded video frame as produced by cv2: a list of pixels in BGR
channel order. -/
abbrev Frame := List (ℕ × ℕ × ℕ)

/-- The cv2.VideoCapture behaviour on the temporary video file: the frame
count reported by CAP_PROP_FRAME_COUNT (0 for an unopenable file or one
with no frames), and the outcome of cap.read() after seeking to a given
frame index (none when the read fails; an unopenable capture reads none at
every index). -/
structure Capture where
  frameCount : ℕ
  readAt : ℕ → Option Frame

/-- cv2.cvtColor with COLOR_BGR2RGB: swap the first and third channel of
every pixel. -/
def cvtColorBGR2RGB (frame : Frame) : Frame :=
  frame.map fun p => (p.2.2, p.2.1, p.1)

/-- The outcome of one call to process_video_frame: the two returned
values, whether the temporary file written at the start of the call was
unlinked before returning, and the frame index at which cap.read() was
attempted. -/
structure VideoResult where
  payload : Option (List Char)
  display : Option Frame
  tmpDeleted : Bool
  readIndex : Option ℕ

/-- process_video_frame (app.py lines 45-78), parameterised over the
capture behaviour and over cv2.imencode, the call modelled as able to
raise (Except.error stands for a raised exception, which lands in the
function's except block). The temporary file is written first with
delete equal to False; the success branch (line 70) and the failed-read
branch (line 74) call os.unlink before returning, while the except branch
(lines 76-78) returns (None, None) without unlinking. -/
def process_video_frame (cap : Capture)
    (imencodeJpg : Frame → Except Unit (List ℕ)) : VideoResult :=
  let total_frames := cap.frameCount
  let middle_frame := total_frames / 2
  match cap.readAt middle_frame with
  | some frame =>
      match imencodeJpg frame with
      | .ok buffer =>
          { payload := some (b64encode buffer),
            display := some (cvtColorBGR2RGB frame),
            tmpDeleted := true,
            readIndex := some middle_frame }
      | .error _ =>
          { payload := none, display := none,
            tmpDeleted := false, readIndex := some middle_frame }
  | none =>
      { payload := none, display := none,
        tmpDeleted := true, readIndex := some middle_frame }

/-- One part of a chat message content array. -/
inductive ContentPart where
  | text (text : String)
  | image_url (url : String)
deriving DecidableEq

/-- A chat message: a role and a content array. -/
structure ChatMessage where
  role : String
  content : List ContentPart
deriving DecidableEq

/-- The request sent to the chat completions endpoint. The literal 0.7
passed as temperature is modelled exactly as the rational 7 / 10; the
program never performs arithmetic on it. -/
structure ChatRequest where
  messages : List ChatMessage
  model : String
  temperature : ℚ
  max_tokens : ℕ

/-- The message inside one returned choice. -/
structure ChoiceMessage where
  content : String

/-- One choice of a chat completion response. -/
structure GroqChoice where
  message : ChoiceMessage

/-- A chat completion response. -/
structure ChatResponse where
  choices : List GroqChoice

/-- The request built by analyze_with_groq (app.py lines 82-106). -/
def groqRequest (base64_image query : String) : ChatRequest :=
  { messages := [
      { role := "user",
        content := [
          ContentPart.text ("Please analyze this image and answer: " ++ query),
          ContentPart.image_url ("data:image/jpeg;base64," ++ base64_image) ] } ],
    model := "llama-3.2-11b-vision-preview",
    temperature := 7 / 10,
    max_tokens := 1000 }

/-- analyze_with_groq (app.py lines 80-112), parameterised over the
endpoint (Except.error stands for a raised network, auth, or rate-limit
error). On a response with no choices, response.choices[0] raises
IndexError; both it and endpoint errors land in the except block, which
reports the error and returns None. -/
def analyze_with_groq (endpoint : ChatRequest → Except String ChatResponse)
    (base64_image query : String) : Option String :=
  match endpoint (groqRequest base64_image query) with
  | .ok r =>
      match r.choices with
      | ch :: _ => some ch.message.content
      | [] => none
  | .error _ => none

/-- The analysis step of main (app.py lines 158-167): analyze_with_groq is
called only when base64_image is truthy, that is, neither None nor the
empty string. The Bool records whether a request was sent to the
endpoint. -/
def mainVisionStep (endpoint : ChatRequest → Except String ChatResponse)
    (base64_image : Option String) (query : String) : Option String × Bool :=
  match base64_image with
  | some s => if s = "" then (none, false) else (analyze_with_groq endpoint s query, true)
  | none => (none, false)

/-- The outcome of load_api_key: a key, a halt of the script via st.stop(),
or an exception propagating uncaught out of the function. -/
inductive KeyOutcome where
  | key (value : String)
  | halted
  | raised
deriving DecidableEq

/-- load_api_key (app.py lines 23-30). The secrets argument is the value
of GROQ_API_KEY in st.secrets when the entry is present, none when it is
absent; subscripting st.secrets with a missing key raises (KeyError or
StreamlitSecretNotFoundError), and no caller catches that exception. A
present but empty value is falsy and falls through to st.text_input, whose
result is promptInput; if that too is empty, st.stop() halts the script. -/
def load_api_key (secrets : Option String) (promptInput : String) : KeyOutcome :=
  match secrets with
  | none => KeyOutcome.raised
  | some v =>
      if v = "" then
        if promptInput = "" then KeyOutcome.halted else KeyOutcome.key promptInput
      else KeyOutcome.key v

/-- The declared media type selected in the UI. -/
inductive MediaType where
  | image
  | video
deriving DecidableEq

/-- What the guarded block of main (app.py lines 140-156) did: whether the
upload was rejected by the size gate, and which media processor ran. -/
structure MainStep where
  rejected : Bool
  encoderRan : Bool
  extractorRan : Bool
deriving DecidableEq

/-- The size gate and dispatch of main (app.py lines 140-156), for a
present uploaded file of the given size in bytes. file_size is
size / (1024 * 1024) computed in Python floating point; dividing an
integer below 2^53 by the power of two 1048576 is exact in IEEE double
precision, so the rational division here models it without error. An
empty query makes the whole block a no-op, since the code guards it with
the conjunction of the file and the query being truthy. -/
def mainMediaStep (media_type : MediaType) (size : ℕ) (query : String) : MainStep :=
  if query = "" then { rejected := false, encoderRan := false, extractorRan := false }
  else
    if (10 : ℚ) < (size : ℚ) / (1024 * 1024) then
      { rejected := true, encoderRan := false, extractorRan := false }
    else
      match media_type with
      | MediaType.image => { rejected := false, encoderRan := true, extractorRan := false }
      | MediaType.video => { rejected := false, encoderRan := false, extractorRan := true }

theorem sextet_charOf : ∀ n : ℕ, n < 64 → sextetOf (charOf n) = some n := by decide

theorem charOf_ne_pad : ∀ n : ℕ, n < 64 → charOf n ≠ '=' := by decide

/-- Base64 round trip: decoding an encoded byte list recovers it exactly. -/
theorem b64decode_b64encode :
    ∀ l : List ℕ, (∀ b ∈ l, b < 256) → b64decode (b64encode l) = some l
  | [], _ => rfl
  | [a], h => by
      have ha : a < 256 := h a (by simp)
      simp only [b64encode, b64decode, sextet_charOf (a / 4) (by omega),
        sextet_charOf (a % 4 * 16) (by omega), Option.some_bind]
      rw [if_pos (by simp)]
      have : a / 4 * 4 + a % 4 * 16 / 16 = a := by omega
      rw [this]
  | [a, b], h => by
      have ha : a < 256 := h a (by simp)
      have hb : b < 256 := h b (by simp)
      simp only [b64encode, b64decode, sextet_charOf (a / 4) (by omega),
        sextet_charOf (a % 4 * 16 + b / 16) (by omega), Option.some_bind]
      rw [if_neg (fun hc => charOf_ne_pad (b % 16 * 4) (by omega) hc.1),
        if_pos (by simp), sextet_charOf (b % 16 * 4) (by omega)]
      have h1 : a / 4 * 4 + (a % 4 * 16 + b / 16) / 16 = a := by omega
      have h2 : (a % 4 * 16 + b / 16) % 16 * 16 + b % 16 * 4 / 4 = b := by omega
      simp only [Option.map_some']
      rw [h1, h2]
  | a :: b :: c :: d :: rest, h => by
      have ha : a < 256 := h a (by simp)
      have hb : b < 256 := h b (by simp)
      have hc : c < 256 := h c (by simp)
      have ih := b64decode_b64encode (d :: rest) (fun x hx => h x (by simp [hx]))
      simp only [b64encode, b64decode, sextet_charOf (a / 4) (by omega),
        sextet_charOf (a % 4 * 16 + b / 16) (by omega), Option.some_bind]
      rw [if_neg (fun hy => charOf_ne_pad (b % 16 * 4 + c / 64) (by omega) hy.1),
        if_neg (fun hz => charOf_ne_pad (c % 64) (by omega) hz.1),
        sextet_charOf (b % 16 * 4 + c / 64) (by omega),
        sextet_charOf (c % 64) (by omega)]
      simp only [Option.some_bind]
      rw [ih]
      have h1 : a / 4 * 4 + (a % 4 * 16 + b / 16) / 16 = a := by omega
      have h2 : (a % 4 * 16 + b / 16) % 16 * 16 + (b % 16 * 4 + c / 64) / 4 = b := by omega
      have h3 : (b % 16 * 4 + c / 64) % 4 * 64 + c % 64 = c := by omega
      simp only [Option.map_some']
      rw [h1, h2, h3]
  | [a, b, c], h => by
      have ha : a < 256 := h a (by simp)
      have hb : b < 256 := h b (by simp)
      have hc : c < 256 := h c (by simp)
      simp only [b64encode, b64decode, sextet_charOf (a / 4) (by omega),
        sextet_charOf (a % 4 * 16 + b / 16) (by omega), Option.some_bind]
      rw [if_neg (fun hy => charOf_ne_pad (b % 16 * 4 + c / 64) (by omega) hy.1),
        if_neg (fun hz => charOf_ne_pad (c % 64) (by omega) hz.1),
        sextet_charOf (b % 16 * 4 + c / 64) (by omega),
        sextet_charOf (c % 64) (by omega)]
      simp only [Option.some_bind, Option.map_some']
      have h1 : a / 4 * 4 + (a % 4 * 16 + b / 16) / 16 = a := by omega
      have h2 : (a % 4 * 16 + b / 16) % 16 * 16 + (b % 16 * 4 + c / 64) / 4 = b := by omega
      have h3 : (b % 16 * 4 + c / 64) % 4 * 64 + c % 64 = c := by omega
      rw [h1, h2, h3]

/-- C3: for every image byte buffer, the output of encode_image, when
base64-decoded, equals the original buffer exactly: the encoder is a
pass-through base64 encoding of the input bytes. -/
theorem encode_image_roundtrip (f : UploadedImage) (hb : ∀ b ∈ f.content, b < 256)
    (s : List Char) (hs : encode_image f = some s) :
    b64decode s = some f.content := by
  unfold encode_image at hs
  by_cases hr : f.readRaises
  · simp [hr] at hs
  · simp [hr] at hs
    rw [← hs]
    exact b64decode_b64encode f.content hb

theorem encode_image_roundtrip_witness :
    b64decode (b64encode [104, 105]) = some [104, 105] :=
  encode_image_roundtrip ⟨[104, 105], false⟩ (by decide) (b64encode [104, 105]) rfl

/-- C1: the claim that process_video_frame deletes its temporary file on
every exit path fails on the exception path: with a readable middle frame
but an imencode call that raises, the except block catches the exception
and returns (None, None) without unlinking, so the temporary file survives
the call. -/
theorem process_video_frame_leaks_tmp_on_exception :
    (process_video_frame ⟨1, fun _ => some [(1, 2, 3)]⟩
        (fun _ => Except.error ())).tmpDeleted = false := rfl

/-- C2: for a decoder reporting at least one frame, process_video_frame
attempts its read exactly at frame index frameCount / 2 (integer floor);
for a zero-frame or unopenable file (frame count reported as 0 and every
read failing) it returns no payload and no display image. -/
theorem process_video_frame_midframe (cap : Capture)
    (enc : Frame → Except Unit (List ℕ)) :
    (1 ≤ cap.frameCount →
      (process_video_frame cap enc).readIndex = some (cap.frameCount / 2)) ∧
    (cap.frameCount = 0 → (∀ i, cap.readAt i = none) →
      (process_video_frame cap enc).payload = none ∧
      (process_video_frame cap enc).display = none) := by
  constructor
  · intro _
    rcases hcap : cap.readAt (cap.frameCount / 2) with _ | frame
    · simp [process_video_frame, hcap]
    · rcases henc : enc frame with e | buf <;>
        simp [process_video_frame, hcap, henc]
  · intro _ hnone
    simp [process_video_frame, hnone]

/-- Witness for C2 at a three-frame capture (read attempted at index 1)
and at an unopenable capture (no payload). -/
theorem process_video_frame_midframe_witness :
    (process_video_frame ⟨3, fun _ => some []⟩ (fun _ => Except.ok [])).readIndex
        = some 1 ∧
    (process_video_frame ⟨0, fun _ => none⟩ (fun _ => Except.ok [])).payload = none :=
  ⟨(process_video_frame_midframe ⟨3, fun _ => some []⟩ (fun _ => Except.ok [])).1
      (by decide),
   ((process_video_frame_midframe ⟨0, fun _ => none⟩ (fun _ => Except.ok [])).2 rfl
      (fun _ => rfl)).1⟩

/-- C10: process_video_frame returns a paired outcome: on every path the
base64 payload and the display image are both present or both absent. -/
theorem process_video_frame_paired (cap : Capture)
    (enc : Frame → Except Unit (List ℕ)) :
    (process_video_frame cap enc).payload.isSome
      = (process_video_frame cap enc).display.isSome := by
  rcases hcap : cap.readAt (cap.frameCount / 2) with _ | frame
  · simp [process_video_frame, hcap]
  · rcases henc : enc frame with e | buf <;>
      simp [process_video_frame, hcap, henc]

/-- C6: for a non-empty payload and non-empty query, the request contains
exactly one message, of role user, whose content is exactly two parts in
order: a text part equal to the query prefixed with the instruction
phrase, then an image_url part whose url is the jpeg data-URI prefix
followed by the payload. -/
theorem groqRequest_message_shape (payload query : String)
    (hp : payload ≠ "") (hq : query ≠ "") :
    (groqRequest payload query).messages =
      [{ role := "user",
         content := [
           ContentPart.text ("Please analyze this image and answer: " ++ query),
           ContentPart.image_url ("data:image/jpeg;base64," ++ payload) ] }] := rfl

/-- Witness for C6 at a concrete payload and query. -/
theorem groqRequest_message_shape_witness :
    (groqRequest "img64" "what is it").messages =
      [{ role := "user",
         content := [
           ContentPart.text ("Please analyze this image and answer: " ++ "what is it"),
           ContentPart.image_url ("data:image/jpeg;base64," ++ "img64") ] }] :=
  groqRequest_message_shape "img64" "what is it" (by decide) (by decide)

/-- C5: with an empty or absent base64 payload, the analysis step of main
returns no result and sends no request to the endpoint. -/
theorem mainVisionStep_empty_payload
    (endpoint : ChatRequest → Except String ChatResponse)
    (payload : Option String) (query : String)
    (h : payload = none ∨ payload = some "") :
    mainVisionStep endpoint payload query = (none, false) := by
  rcases h with h | h <;> subst h <;> simp [mainVisionStep]

/-- Witness for C5 with an absent payload and an endpoint that would fail. -/
theorem mainVisionStep_empty_payload_witness :
    mainVisionStep (fun _ => Except.error "down") none "query" = (none, false) :=
  mainVisionStep_empty_payload (fun _ => Except.error "down") none "query" (Or.inl rfl)

/-- C7: every request carries the fixed parameters: the model identifier
llama-3.2-11b-vision-preview, temperature 0.7 (the rational 7 / 10), and
max_tokens 1000; and when the endpoint answers with at least one choice,
analyze_with_groq returns exactly the first choice's message content. -/
theorem analyze_with_groq_fixed_params
    (endpoint : ChatRequest → Except String ChatResponse)
    (payload query : String) (r : ChatResponse) (ch : GroqChoice)
    (rest : List GroqChoice)
    (hok : endpoint (groqRequest payload query) = Except.ok r)
    (hch : r.choices = ch :: rest) :
    (groqRequest payload query).model = "llama-3.2-11b-vision-preview" ∧
    (groqRequest payload query).temperature = 7 / 10 ∧
    (groqRequest payload query).max_tokens = 1000 ∧
    analyze_with_groq endpoint payload query = some ch.message.content := by
  refine ⟨rfl, rfl, rfl, ?_⟩
  simp only [analyze_with_groq, hok, hch]

/-- Witness for C7 at a one-choice endpoint. -/
theorem analyze_with_groq_fixed_params_witness :
    analyze_with_groq (fun _ => Except.ok ⟨[⟨⟨"The car is red."⟩⟩]⟩) "img" "q"
      = some "The car is red." :=
  (analyze_with_groq_fixed_params (fun _ => Except.ok ⟨[⟨⟨"The car is red."⟩⟩]⟩)
    "img" "q" ⟨[⟨⟨"The car is red."⟩⟩]⟩ ⟨⟨"The car is red."⟩⟩ [] rfl rfl).2.2.2

/-- C4 counterexample: with GROQ_API_KEY absent from the secrets store,
load_api_key raises an uncaught exception rather than falling back to the
masked prompt: even with a key typed at the prompt, the outcome is the
raised exception, not that key. -/
theorem load_api_key_counterexample :
    load_api_key none "typed-key" = KeyOutcome.raised ∧
    KeyOutcome.raised ≠ KeyOutcome.key "typed-key" := ⟨rfl, by decide⟩

/-- C4 amended: only when the secret store holds the key with an empty
value does the program fall back to the masked prompt, halting when the
prompt is also empty; when the key is absent from the secret store, the
subscript lookup raises and the exception propagates uncaught to the top
level. -/
theorem load_api_key_amended (promptInput : String) :
    (load_api_key (some "") promptInput
      = if promptInput = "" then KeyOutcome.halted else KeyOutcome.key promptInput) ∧
    load_api_key none promptInput = KeyOutcome.raised ∧
    (∀ v : String, v ≠ "" → load_api_key (some v) promptInput = KeyOutcome.key v) := by
  refine ⟨rfl, rfl, fun v hv => ?_⟩
  simp [load_api_key, hv]

/-- Witness for C4 amended at concrete secret-store states. -/
theorem load_api_key_amended_witness :
    load_api_key (some "") "" = KeyOutcome.halted ∧
    load_api_key none "" = KeyOutcome.raised ∧
    load_api_key (some "sk") "" = KeyOutcome.key "sk" :=
  ⟨(load_api_key_amended "").1, (load_api_key_amended "").2.1,
   (load_api_key_amended "").2.2 "sk" (by decide)⟩

/-- The Python size test size / (1024 * 1024) > 10, in exact arithmetic,
holds exactly when size exceeds 10 * 1024 * 1024 bytes. -/
theorem size_gate_iff (size : ℕ) :
    ((10 : ℚ) < (size : ℚ) / (1024 * 1024)) ↔ 10 * 1024 * 1024 < size := by
  rw [lt_div_iff (by norm_num : (0 : ℚ) < 1024 * 1024)]
  norm_cast

/-- C8: with a file present and a non-empty query, a file strictly larger
than 10 * 1024 * 1024 bytes is rejected by the size gate and neither the
image encoder nor the video frame extractor runs; a file at most that
size (such as one of 9.9 MB) is not rejected and the processor for its
declared media type runs. -/
theorem mainMediaStep_size_gate (media_type : MediaType) (size : ℕ)
    (query : String) (hq : query ≠ "") :
    (10 * 1024 * 1024 < size →
      mainMediaStep media_type size query
        = { rejected := true, encoderRan := false, extractorRan := false }) ∧
    (size ≤ 10 * 1024 * 1024 →
      (mainMediaStep media_type size query).rejected = false ∧
      (media_type = MediaType.image →
        (mainMediaStep media_type size query).encoderRan = true) ∧
      (media_type = MediaType.video →
        (mainMediaStep media_type size query).extractorRan = true)) := by
  constructor
  · intro h
    simp only [mainMediaStep, if_neg hq, if_pos ((size_gate_iff size).mpr h)]
  · intro h
    have hno : ¬ ((10 : ℚ) < (size : ℚ) / (1024 * 1024)) := by
      rw [size_gate_iff]; omega
    simp only [mainMediaStep, if_neg hq, if_neg hno]
    cases media_type <;> simp

/-- Witness for C8: a 10485761-byte upload is rejected with no processing,
and a 9.9 MB (10380902-byte) image upload proceeds to the encoder. -/
theorem mainMediaStep_size_gate_witness :
    mainMediaStep MediaType.image 10485761 "q"
      = { rejected := true, encoderRan := false, extractorRan := false } ∧
    (mainMediaStep MediaType.image 10380902 "q").rejected = false ∧
    (mainMediaStep MediaType.image 10380902 "q").encoderRan = true :=
  ⟨(mainMediaStep_size_gate MediaType.image 10485761 "q" (by decide)).1 (by norm_num),
   ((mainMediaStep_size_gate MediaType.image 10380902 "q" (by decide)).2
      (by norm_num)).1,
   ((mainMediaStep_size_gate MediaType.image 10380902 "q" (by decide)).2
      (by norm_num)).2.1 rfl⟩

/-- C9: the size gate is a strict greater-than comparison on megabytes:
rejection happens exactly when the size exceeds 10 * 1024 * 1024 bytes,
and an upload of exactly 10 * 1024 * 1024 bytes is accepted and proceeds
to processing. -/
theorem mainMediaStep_boundary :
    (∀ (media_type : MediaType) (size : ℕ) (query : String), query ≠ "" →
      ((mainMediaStep media_type size query).rejected = true
        ↔ 10 * 1024 * 1024 < size)) ∧
    (mainMediaStep MediaType.image (10 * 1024 * 1024) "q").rejected = false ∧
    (mainMediaStep MediaType.image (10 * 1024 * 1024) "q").encoderRan = true := by
  have hq : ¬ ("q" = "") := by decide
  have hno : ¬ ((10 : ℚ) < ((10 * 1024 * 1024 : ℕ) : ℚ) / (1024 * 1024)) := by
    rw [size_gate_iff]; omega
  refine ⟨fun media_type size query hquery => ?_, ?_, ?_⟩
  · by_cases hbig : (10 : ℚ) < (size : ℚ) / (1024 * 1024)
    · exact iff_of_true (by simp [mainMediaStep, if_neg hquery, if_pos hbig])
        ((size_gate_iff size).mp hbig)
    · have hle : ¬ (10 * 1024 * 1024 < size) :=
        fun hlt => hbig ((size_gate_iff size).mpr hlt)
      refine iff_of_false (fun hcontra => ?_) hle
      simp only [mainMediaStep, if_neg hquery, if_neg hbig] at hcontra
      cases media_type <;> simp at hcontra
  · norm_num [mainMediaStep, if_neg hq]
  · norm_num [mainMediaStep, if_neg hq]

/-- Witness for C9 at a concrete oversize upload. -/
theorem mainMediaStep_boundary_witness :
    ((mainMediaStep MediaType.video 10485761 "why").rejected = true
      ↔ 10 * 1024 * 1024 < 10485761) ∧
    (mainMediaStep MediaType.image (10 * 1024 * 1024) "q").rejected = false :=
  ⟨mainMediaStep_boundary.1 MediaType.video 10485761 "why" (by decide),
   mainMediaStep_boundary.2.1⟩
